import Mathlib

/-
  Verification development for the ffetch repository (a system-information
  fetch tool).  The probe/config/render pipeline of src/probe.rs,
  src/config.rs, src/renderer/neofetch.rs, src/renderer/macchina.rs and
  src/renderer/macchina/mod.rs is shallowly embedded below.

  Modelling conventions:
  * Rust machine integers (u8, u64, usize, i32) are modelled as Nat / Int;
    none of the embedded arithmetic can overflow at the magnitudes involved.
  * The f64 / f32 unit-conversion arithmetic of the formatters is modelled
    in exact rational arithmetic (ℚ) with Rust `round` semantics
    (round half away from zero; all inputs here are nonnegative, where this
    is floor (x + 1/2)).  At every input a theorem below evaluates, the
    floating-point rounding error of the source is far smaller than the
    distance to the nearest integer-rounding boundary, so the exact model
    and the float code agree on the printed integers.
  * Terminal colour styling (console::style) is a display concern the spec
    puts out of scope; lines are modelled as their unstyled text.
  * `println!` cannot return an error in Rust (it panics on write failure);
    output is modelled as the returned list of lines.
  * The libmacchina platform readouts are the external collaborator; they
    are modelled as an oracle record `ProbeEnv` whose operations return
    `Except ProbeError _` (the `From<ReadoutError>` impl of probe.rs maps
    the four ReadoutError variants one-to-one onto ProbeError).
-/

namespace FFetch

/-- Error taxonomy of src/probe.rs (`ProbeError`). -/
inductive ProbeError where
  | metricsUnavailable : ProbeError
  | unimplemented : ProbeError
  | other : String → ProbeError
  | warning : String → ProbeError
deriving DecidableEq, Repr

/-- libmacchina's `BatteryState` (used by the power-adapter probe). -/
inductive BatteryState where
  | charging : BatteryState
  | discharging : BatteryState
deriving DecidableEq, Repr

/-- src/probe.rs `ProbeResultValue`: one value or a per-element list.
The source fixes the element type to its iteration's `ProbeValue`; the
embedding is parametric because the repository holds two iterations of
that value type. -/
inductive ProbeResultValue (α : Type) where
  | single : α → ProbeResultValue α
  | multiple : List α → ProbeResultValue α
deriving DecidableEq, Repr

/-- src/probe.rs `ProbeResult = Result<ProbeResultValue, ProbeError>`. -/
abbrev ProbeResult (α : Type) := Except ProbeError (ProbeResultValue α)

/-- Rust `f64::round` / `f32::round` on a nonnegative value: round half away
from zero, which for x ≥ 0 is ⌊x + 1/2⌋. -/
def roundQ (x : ℚ) : ℤ := ⌊x + 1 / 2⌋

/-- Rust `%` on floats truncates toward zero; every operand in the embedded
code is nonnegative, where truncation coincides with floor. -/
def fmod (x y : ℚ) : ℚ := x - y * (⌊x / y⌋ : ℤ)

/-- Rust `format!("{:width$}", s)`: left-justify, pad with spaces up to
`width` (no-op when the string is at least that long). -/
def padRight (s : String) (w : Nat) : String :=
  s ++ String.mk (List.replicate (w - s.length) ' ')

/-- `"-".repeat(n)` (the underline of the neofetch renderer). -/
def dashes (n : Nat) : String := String.mk (List.replicate n '-')

/-- Oracle for the libmacchina platform readouts invoked by the probes
(the external "platform readout collaborator" of the spec).  Each field is
one readout operation; fallible ones return `Except ProbeError`. -/
structure ProbeEnv where
  distribution : Except ProbeError String
  vendor : Except ProbeError String
  product : Except ProbeError String
  pretty_kernel : Except ProbeError String
  uptime : Except ProbeError Nat
  /-- `PackageReadout::count_pkgs` is infallible in libmacchina. -/
  count_pkgs : List (String × Nat)
  /-- `GeneralReadout::shell(ShellFormat::Relative, ShellKind::Current)`;
  the probe always passes those two constants. -/
  shell : Except ProbeError String
  resolution : Except ProbeError String
  desktop_environment : Except ProbeError String
  window_manager : Except ProbeError String
  terminal : Except ProbeError String
  cpu_model_name : Except ProbeError String
  gpus : Except ProbeError (List String)
  memory_used : Except ProbeError Nat
  memory_total : Except ProbeError Nat
  cpu_usage : Except ProbeError Nat
  disk_space : Except ProbeError (Nat × Nat)
  battery_percentage : Except ProbeError Nat
  battery_status : Except ProbeError BatteryState
  username : Except ProbeError String
  hostname : Except ProbeError String

namespace Probe

/-- The `ProbeValue` enum of src/probe.rs (the probe-side iteration:
no Host/Distro variants, `Packages` is one (manager, count) pair). -/
inductive ProbeValue where
  | os : String → ProbeValue
  | model : String → String → ProbeValue
  | kernel : String → ProbeValue
  | uptime : Nat → ProbeValue
  | packages : String → Nat → ProbeValue
  | shell : String → ProbeValue
  | editor : String → ProbeValue
  | resolution : String → ProbeValue
  | de : String → ProbeValue
  | wm : String → ProbeValue
  | wmTheme : String → ProbeValue
  | theme : String → ProbeValue
  | icons : String → ProbeValue
  | cursor : String → ProbeValue
  | terminal : String → ProbeValue
  | terminalFont : String → ProbeValue
  | cpu : String → ProbeValue
  | gpu : String → ProbeValue
  | memory : Nat → Nat → ProbeValue
  | network : String → ProbeValue
  | bluetooth : String → ProbeValue
  | bios : String → ProbeValue
  | gpuDriver : String → ProbeValue
  | cpuUsage : Nat → ProbeValue
  | disk : Nat → Nat → ProbeValue
  | battery : Nat → ProbeValue
  | powerAdapter : String → ProbeValue
  | font : String → ProbeValue
  | song : String → ProbeValue
  | localIP : List String → ProbeValue
  | publicIP : String → ProbeValue
  | users : Nat → ProbeValue
  | locale : String → ProbeValue
  | java : String → ProbeValue
  | python : String → ProbeValue
  | node : String → ProbeValue
  | rust : String → ProbeValue
deriving DecidableEq, Repr

end Probe

/-- The Uptime formatting block shared verbatim by
`ProbeValue::to_string` (src/probe.rs lines 101-118) and
`NeofetchRenderer::probe_config_to_string` (src/renderer/neofetch.rs lines
90-107): every unit bucket is computed with f64 division, `%` and
`.round()`, then the first branch among days/hours/minutes/seconds whose
bucket is positive is rendered (the `{:.0}` precision is a no-op on the
i32-cast buckets). -/
def uptimeNeofetchString (u : Nat) : String :=
  let days : ℤ := roundQ ((u : ℚ) / (60 * 60 * 24))
  let hours : ℤ := roundQ (fmod ((u : ℚ) / (60 * 60)) 24)
  let minutes : ℤ := roundQ (fmod ((u : ℚ) / 60) 60)
  let seconds : ℤ := roundQ (fmod (u : ℚ) 60)
  if days > 0 then
    toString days ++ " days, " ++ toString hours ++ " hours, " ++ toString minutes ++ " mins"
  else if hours > 0 then
    toString hours ++ " hours, " ++ toString minutes ++ " mins"
  else if minutes > 0 then
    toString minutes ++ " mins"
  else
    toString seconds ++ " seconds"

namespace Probe

/-- `impl ToString for ProbeValue` of src/probe.rs (lines 95-159).
Memory is printed as a raw `{} MiB / {} MiB` passthrough; Disk divides by
1024 (its doc comment says the payload is MiB) and derives the rounded
percentage; CPUUsage and Battery print the bare number. -/
def ProbeValue.to_string : ProbeValue → String
  | .os s => s
  | .model vendor product => vendor ++ " " ++ product
  | .kernel s => s
  | .uptime u => uptimeNeofetchString u
  | .packages manager count => toString count ++ " (" ++ manager ++ ")"
  | .shell s => s
  | .editor s => s
  | .resolution s => s
  | .de s => s
  | .wm s => s
  | .wmTheme s => s
  | .theme s => s
  | .icons s => s
  | .cursor s => s
  | .terminal s => s
  | .terminalFont s => s
  | .cpu s => s
  | .gpu s => s
  | .memory free total => toString free ++ " MiB / " ++ toString total ++ " MiB"
  | .network s => s
  | .bluetooth s => s
  | .bios s => s
  | .gpuDriver s => s
  | .cpuUsage n => toString n
  | .disk used total =>
      toString (roundQ ((used : ℚ) / 1024)) ++ " G / " ++
      toString (roundQ ((total : ℚ) / 1024)) ++ " G (" ++
      toString (roundQ ((used : ℚ) / (total : ℚ) * 100)) ++ "%)"
  | .battery b => toString b
  | .powerAdapter s => s
  | .font s => s
  | .song s => s
  | .localIP l => String.intercalate ", " l
  | .publicIP s => s
  | .users n => toString n
  | .locale s => s
  | .java s => s
  | .python s => s
  | .node s => s
  | .rust s => s

end Probe

/-- Computation mirror of `uptimeNeofetchString` in natural-number
arithmetic (proof artifact, not source code): each rounded f64 bucket
becomes an integer division. -/
def uptimeNeofetchNat (u : Nat) : String :=
  let days := (2 * u + 86400) / (2 * 86400)
  let hours := (2 * (u % (3600 * 24)) + 3600) / (2 * 3600)
  let minutes := (2 * (u % (60 * 60)) + 60) / (2 * 60)
  let seconds := u % 60
  if 0 < days then
    toString days ++ " days, " ++ toString hours ++ " hours, " ++ toString minutes ++ " mins"
  else if 0 < hours then
    toString hours ++ " hours, " ++ toString minutes ++ " mins"
  else if 0 < minutes then
    toString minutes ++ " mins"
  else
    toString seconds ++ " seconds"

/-- A configured entry as the renderers receive it: a display label paired
with the bound zero-argument probe (src/probe.rs `ProbeList` element,
with the libmacchina side effects made explicit through `ProbeEnv`). -/
abbrev Entry (α : Type) := String × (ProbeEnv → ProbeResult α)

/-- `probe_list.iter().map(|(title, _)| title.len()).max().unwrap_or(0)`,
shared by all three renderer `draw` functions. -/
def maxTitleLen {α : Type} (l : List (Entry α)) : Nat :=
  (l.map fun e => e.1.length).foldr Nat.max 0

/-- `RendererError` of src/renderer/mod.rs.  `PrintError` wraps an
io::Error from printing; the embedded renderers never construct it
because `println!` panics rather than returning an error. -/
inductive RendererError where
  | readoutError : ProbeError → RendererError
  | printError : String → RendererError
deriving DecidableEq, Repr

/-- `NeofetchRendererConfig` of src/config.rs (display flags; the `probes`
list is modelled as the resolved `Entry` list handed to `draw`). -/
structure NeofetchRendererConfig where
  title : Bool
  underline : Bool
  col : Bool

namespace Neofetch

/-- The `ProbeValue` iteration matched by
`NeofetchRenderer::probe_config_to_string` (src/renderer/neofetch.rs lines
83-155): it has Host and Distro variants and list-shaped Packages/LocalIP
payloads. -/
inductive ProbeValue where
  | host : String → String → ProbeValue
  | os : String → ProbeValue
  | distro : String → ProbeValue
  | model : String → String → ProbeValue
  | kernel : String → ProbeValue
  | uptime : Nat → ProbeValue
  | packages : List (String × Nat) → ProbeValue
  | shell : String → ProbeValue
  | editor : String → ProbeValue
  | resolution : String → ProbeValue
  | de : String → ProbeValue
  | wm : String → ProbeValue
  | wmTheme : String → ProbeValue
  | theme : String → ProbeValue
  | icons : String → ProbeValue
  | cursor : String → ProbeValue
  | terminal : String → ProbeValue
  | terminalFont : String → ProbeValue
  | cpu : String → ProbeValue
  | gpu : String → ProbeValue
  | memory : Nat → Nat → ProbeValue
  | network : String → ProbeValue
  | bluetooth : String → ProbeValue
  | bios : String → ProbeValue
  | gpuDriver : String → ProbeValue
  | cpuUsage : Nat → ProbeValue
  | disk : Nat → Nat → ProbeValue
  | battery : Nat → ProbeValue
  | powerAdapter : String → ProbeValue
  | font : String → ProbeValue
  | song : String → ProbeValue
  | localIP : List String → ProbeValue
  | publicIP : String → ProbeValue
  | users : Nat → ProbeValue
  | locale : String → ProbeValue
  | java : String → ProbeValue
  | node : String → ProbeValue
  | python : String → ProbeValue
  | rust : String → ProbeValue
deriving DecidableEq, Repr

/-- `NeofetchRenderer::probe_config_to_string` (src/renderer/neofetch.rs
lines 83-155).  Uptime uses the shared rounded-bucket block; Memory
converts to GiB (f32 divide by 1024*1024, round); Disk converts to GiB
(divide by 1024^3, round) and derives round(used/total*100); CPUUsage gets
a "%" suffix; Battery prints the bare number. -/
def probe_config_to_string : ProbeValue → String
  | .host username hostname => username ++ "@" ++ hostname
  | .os s => s
  | .distro s => s
  | .model vendor product => vendor ++ " " ++ product
  | .kernel s => s
  | .uptime u => uptimeNeofetchString u
  | .packages counts =>
      String.intercalate ", " (counts.map fun pc => toString pc.2 ++ " (" ++ pc.1 ++ ")")
  | .shell s => s
  | .editor s => s
  | .resolution s => s
  | .de s => s
  | .wm s => s
  | .wmTheme s => s
  | .theme s => s
  | .icons s => s
  | .cursor s => s
  | .terminal s => s
  | .terminalFont s => s
  | .cpu s => s
  | .gpu s => s
  | .memory free total =>
      toString (roundQ ((free : ℚ) / (1024 * 1024))) ++ " GiB / " ++
      toString (roundQ ((total : ℚ) / (1024 * 1024))) ++ " GiB"
  | .network s => s
  | .bluetooth s => s
  | .bios s => s
  | .gpuDriver s => s
  | .cpuUsage n => toString n ++ "%"
  | .disk used total =>
      toString (roundQ ((used : ℚ) / (1024 * 1024 * 1024))) ++ " G / " ++
      toString (roundQ ((total : ℚ) / (1024 * 1024 * 1024))) ++ " G (" ++
      toString (roundQ ((used : ℚ) / (total : ℚ) * 100)) ++ "%)"
  | .battery b => toString b
  | .powerAdapter s => s
  | .font s => s
  | .song s => s
  | .localIP l => String.intercalate ", " l
  | .publicIP s => s
  | .users n => toString n
  | .locale s => s
  | .java s => s
  | .node s => s
  | .python s => s
  | .rust s => s

/-- One iteration of the entry loop of `NeofetchRenderer::draw`
(src/renderer/neofetch.rs lines 54-72): pad the label to the column width
and suffix ":", then render one line per probed value; a probe error only
logs and `continue`s, producing no line. -/
def entryLines (env : ProbeEnv) (w : Nat) (e : Entry ProbeValue) : List String :=
  let t := padRight e.1 w ++ ":"
  match e.2 env with
  | .error _ => []
  | .ok (.single v) => [t ++ " " ++ probe_config_to_string v]
  | .ok (.multiple vs) => vs.map fun v => t ++ " " ++ probe_config_to_string v

/-- `NeofetchRenderer::draw` (src/renderer/neofetch.rs lines 27-80):
optional `user@host` title from direct username/hostname readouts (whose
errors propagate via `?` as `RendererError`), optional dash underline of
the title's length, then the per-entry lines. -/
def draw (cfg : NeofetchRendererConfig) (env : ProbeEnv)
    (probeList : List (Entry ProbeValue)) : Except RendererError (List String) := do
  let w := maxTitleLen probeList
  let (headLines, titleLen) ←
    if cfg.title then do
      let username ← Except.mapError RendererError.readoutError env.username
      let hostname ← Except.mapError RendererError.readoutError env.hostname
      pure ([username ++ "@" ++ hostname], username.length + hostname.length + 1)
    else
      pure (([] : List String), 0)
  let underlineLines := if cfg.underline then [dashes titleLen] else []
  pure (headLines ++ underlineLines ++ probeList.flatMap (entryLines env w))

end Neofetch

/-- `MacchinaRendererConfig` of src/config.rs (the `probes` list is
modelled as the resolved `Entry` list handed to `draw`). -/
structure MacchinaRendererConfig where
  interface : Option String
  long_uptime : Bool

/-- Rust Display of the f32 value q/10 (an integer number of tenths):
prints the integer part alone when the tenths digit is zero, else with one
decimal digit (for the magnitudes involved, the shortest round-trip float
representation is exactly that). -/
def fmtTenth (q : ℤ) : String :=
  if q % 10 = 0 then toString (q / 10)
  else toString (q / 10) ++ "." ++ toString (q % 10)

/-- The Uptime block of `MacchinaRenderer::probe_config_to_string`
(src/renderer/macchina/mod.rs lines 98-133): floored f64 buckets, and the
concatenation of a "Nd ", "Nh ", "Nm " piece for each positive bucket
(each with a trailing space; empty output when all three are zero). -/
def uptimeMacchinaString (u : Nat) : String :=
  let days : ℤ := ⌊(u : ℚ) / (60 * 60 * 24)⌋
  let hours : ℤ := ⌊fmod ((u : ℚ) / (60 * 60)) 24⌋
  let minutes : ℤ := ⌊fmod ((u : ℚ) / 60) 60⌋
  (if days > 0 then toString days ++ "d " else "") ++
  (if hours > 0 then toString hours ++ "h " else "") ++
  (if minutes > 0 then toString minutes ++ "m " else "")

namespace Macchina

/-- The `ProbeValue` iteration matched by
`MacchinaRenderer::probe_config_to_string` (src/renderer/macchina/mod.rs
lines 91-187); identical to the neofetch iteration except that its LocalIP
payload is used as a single string. -/
inductive ProbeValue where
  | host : String → String → ProbeValue
  | os : String → ProbeValue
  | distro : String → ProbeValue
  | model : String → String → ProbeValue
  | kernel : String → ProbeValue
  | uptime : Nat → ProbeValue
  | packages : List (String × Nat) → ProbeValue
  | shell : String → ProbeValue
  | editor : String → ProbeValue
  | resolution : String → ProbeValue
  | de : String → ProbeValue
  | wm : String → ProbeValue
  | wmTheme : String → ProbeValue
  | theme : String → ProbeValue
  | icons : String → ProbeValue
  | cursor : String → ProbeValue
  | terminal : String → ProbeValue
  | terminalFont : String → ProbeValue
  | cpu : String → ProbeValue
  | gpu : String → ProbeValue
  | memory : Nat → Nat → ProbeValue
  | network : String → ProbeValue
  | bluetooth : String → ProbeValue
  | bios : String → ProbeValue
  | gpuDriver : String → ProbeValue
  | cpuUsage : Nat → ProbeValue
  | disk : Nat → Nat → ProbeValue
  | battery : Nat → ProbeValue
  | powerAdapter : String → ProbeValue
  | font : String → ProbeValue
  | song : String → ProbeValue
  | localIP : String → ProbeValue
  | publicIP : String → ProbeValue
  | users : Nat → ProbeValue
  | locale : String → ProbeValue
  | java : String → ProbeValue
  | node : String → ProbeValue
  | python : String → ProbeValue
  | rust : String → ProbeValue
deriving DecidableEq, Repr

/-- `MacchinaRenderer::probe_config_to_string` (src/renderer/macchina/mod.rs
lines 91-187).  Uptime uses the floored "Nd Nh Nm " style; Memory converts
to GB with one rounded decimal (f32 *10/1e6, round, /10); Disk converts to
GiB with round(used/total*100); CPUUsage gets "%"; Battery prints "Full"
when the value is at least 100 and the bare number otherwise. -/
def probe_config_to_string : ProbeValue → String
  | .host username hostname => username ++ "@" ++ hostname
  | .os s => s
  | .distro s => s
  | .model vendor product => vendor ++ " " ++ product
  | .kernel s => s
  | .uptime u => uptimeMacchinaString u
  | .packages counts =>
      String.intercalate ", " (counts.map fun pc => toString pc.2 ++ " (" ++ pc.1 ++ ")")
  | .shell s => s
  | .editor s => s
  | .resolution s => s
  | .de s => s
  | .wm s => s
  | .wmTheme s => s
  | .theme s => s
  | .icons s => s
  | .cursor s => s
  | .terminal s => s
  | .terminalFont s => s
  | .cpu s => s
  | .gpu s => s
  | .memory free total =>
      fmtTenth (roundQ ((free : ℚ) * 10 / (1000 * 1000))) ++ " GB / " ++
      fmtTenth (roundQ ((total : ℚ) * 10 / (1000 * 1000))) ++ " GB"
  | .network s => s
  | .bluetooth s => s
  | .bios s => s
  | .gpuDriver s => s
  | .cpuUsage n => toString n ++ "%"
  | .disk used total =>
      toString (roundQ ((used : ℚ) / (1024 * 1024 * 1024))) ++ " G / " ++
      toString (roundQ ((total : ℚ) / (1024 * 1024 * 1024))) ++ " G (" ++
      toString (roundQ ((used : ℚ) / (total : ℚ) * 100)) ++ "%)"
  | .battery b => if b ≥ 100 then "Full" else toString b
  | .powerAdapter s => s
  | .font s => s
  | .song s => s
  | .localIP s => s
  | .publicIP s => s
  | .users n => toString n
  | .locale s => s
  | .java s => s
  | .node s => s
  | .python s => s
  | .rust s => s

/-- `std::cmp::max(max label length + 2, 12)` (src/renderer/macchina/mod.rs
lines 37-45 and src/renderer/macchina.rs lines 30-38). -/
def titleWidth {α : Type} (l : List (Entry α)) : Nat :=
  Nat.max (maxTitleLen l + 2) 12

/-- One iteration of the entry loop of the macchina `draw`
(src/renderer/macchina/mod.rs lines 51-77), without the ASCII-art prefix:
pad the label to the column width, then `-`, two spaces and the rendered
value; a probe error only logs and `continue`s. -/
def entryLines (env : ProbeEnv) (w : Nat) (e : Entry ProbeValue) : List String :=
  match e.2 env with
  | .error _ => []
  | .ok (.single v) => [padRight e.1 w ++ "-" ++ "  " ++ probe_config_to_string v]
  | .ok (.multiple vs) =>
      vs.map fun v => padRight e.1 w ++ "-" ++ "  " ++ probe_config_to_string v

/-- The ASCII-art row paired with the i-th printed probe line: the next
art row while any remain, else the fixed-width blank filler
(`ASCII_ART_FILLER`). -/
def artLine (art : List String) (filler : String) (i : Nat) : String :=
  match art[i]? with
  | some a => a
  | none => filler

/-- `MacchinaRenderer::draw` (src/renderer/macchina/mod.rs lines 36-87):
a leading blank line, each probe line prefixed by one consumed art row (or
the filler) and four spaces, then the unconsumed art rows, then a blank
line.  The art block itself lives in the missing
src/renderer/macchina/ascii.rs and is passed in as data.  This draw has no
fallible operation: it always succeeds. -/
def draw (art : List String) (filler : String) (env : ProbeEnv)
    (probeList : List (Entry ProbeValue)) : Except RendererError (List String) :=
  let w := titleWidth probeList
  let rs := probeList.flatMap (entryLines env w)
  let mainLines := rs.enum.map fun p => artLine art filler p.1 ++ "    " ++ p.2
  .ok ([""] ++ mainLines ++ art.drop rs.length ++ [""])

end Macchina

namespace MacchinaOld

/-- One iteration of the entry loop of the older macchina renderer
(src/renderer/macchina.rs lines 42-64), which renders values through
`ProbeValue::to_string` of src/probe.rs: pad the label to the column
width, then `-`, two spaces and the rendered value; a probe error only
logs and `continue`s. -/
def entryLines (env : ProbeEnv) (w : Nat) (e : Entry Probe.ProbeValue) : List String :=
  match e.2 env with
  | .error _ => []
  | .ok (.single v) => [padRight e.1 w ++ "-" ++ "  " ++ v.to_string]
  | .ok (.multiple vs) =>
      vs.map fun v => padRight e.1 w ++ "-" ++ "  " ++ v.to_string

/-- `MacchinaRenderer::draw` of src/renderer/macchina.rs (lines 25-67):
a leading blank line then the per-entry lines; the config argument is
accepted and unused, and no operation can fail. -/
def draw (_cfg : MacchinaRendererConfig) (env : ProbeEnv)
    (probeList : List (Entry Probe.ProbeValue)) : Except RendererError (List String) :=
  .ok ("" :: probeList.flatMap (entryLines env (Macchina.titleWidth probeList)))

end MacchinaOld

/-- The probe closure pushed for `config.os` (src/probe.rs lines 252-262). -/
def osProbe (env : ProbeEnv) : Except ProbeError (ProbeResultValue Probe.ProbeValue) := do
  let d ← env.distribution
  pure (.single (.os d))

/-- The probe closure pushed for `config.model` (src/probe.rs lines 263-273). -/
def modelProbe (env : ProbeEnv) : Except ProbeError (ProbeResultValue Probe.ProbeValue) := do
  let v ← env.vendor
  let p ← env.product
  pure (.single (.model v p))

/-- The probe closure pushed for `config.kernel` (src/probe.rs lines 274-283). -/
def kernelProbe (env : ProbeEnv) : Except ProbeError (ProbeResultValue Probe.ProbeValue) := do
  let k ← env.pretty_kernel
  pure (.single (.kernel k))

/-- The probe closure pushed for `config.uptime` (src/probe.rs lines 284-293). -/
def uptimeProbe (env : ProbeEnv) : Except ProbeError (ProbeResultValue Probe.ProbeValue) := do
  let u ← env.uptime
  pure (.single (.uptime u))

/-- The probe closure pushed for `config.packages` (src/probe.rs lines
294-308): one `Packages` value per package manager, as a `Multiple`. -/
def packagesProbe (env : ProbeEnv) : ProbeResult Probe.ProbeValue :=
  .ok (.multiple (env.count_pkgs.map fun pc => .packages pc.1 pc.2))

/-- The probe closure pushed for `config.shell` (src/probe.rs lines 309-318). -/
def shellProbe (env : ProbeEnv) : Except ProbeError (ProbeResultValue Probe.ProbeValue) := do
  let s ← env.shell
  pure (.single (.shell s))

/-- The probe closure pushed for `config.editor` (src/probe.rs line 321):
unconditionally `Err(ProbeError::Unimplemented)`. -/
def editorProbe (_env : ProbeEnv) : ProbeResult Probe.ProbeValue :=
  .error .unimplemented

/-- The probe closure pushed for `config.resolution` (src/probe.rs lines 323-332). -/
def resolutionProbe (env : ProbeEnv) : Except ProbeError (ProbeResultValue Probe.ProbeValue) := do
  let r ← env.resolution
  pure (.single (.resolution r))

/-- The probe closure pushed for `config.de` (src/probe.rs lines 333-342). -/
def deProbe (env : ProbeEnv) : Except ProbeError (ProbeResultValue Probe.ProbeValue) := do
  let d ← env.desktop_environment
  pure (.single (.de d))

/-- The probe closure pushed for `config.wm` (src/probe.rs lines 343-352). -/
def wmProbe (env : ProbeEnv) : Except ProbeError (ProbeResultValue Probe.ProbeValue) := do
  let w ← env.window_manager
  pure (.single (.wm w))

/-- The probe closure pushed for `config.wm_theme` (src/probe.rs lines
353-362): a fixed empty-string placeholder. -/
def wmThemeProbe (_env : ProbeEnv) : ProbeResult Probe.ProbeValue :=
  .ok (.single (.wmTheme ""))

/-- The probe closure pushed for `config.theme` (src/probe.rs lines
363-368): a fixed empty-string placeholder. -/
def themeProbe (_env : ProbeEnv) : ProbeResult Probe.ProbeValue :=
  .ok (.single (.theme ""))

/-- The probe closure pushed for `config.icons` (src/probe.rs lines
369-374): a fixed empty-string placeholder. -/
def iconsProbe (_env : ProbeEnv) : ProbeResult Probe.ProbeValue :=
  .ok (.single (.icons ""))

/-- The probe closure pushed for `config.cursor` (src/probe.rs lines
375-380): a fixed empty-string placeholder. -/
def cursorProbe (_env : ProbeEnv) : ProbeResult Probe.ProbeValue :=
  .ok (.single (.cursor ""))

/-- The probe closure pushed for `config.terminal` (src/probe.rs lines 381-390). -/
def terminalProbe (env : ProbeEnv) : Except ProbeError (ProbeResultValue Probe.ProbeValue) := do
  let t ← env.terminal
  pure (.single (.terminal t))

/-- The probe closure pushed for `config.terminal_font` (src/probe.rs
lines 391-400): a fixed empty-string placeholder. -/
def terminalFontProbe (_env : ProbeEnv) : ProbeResult Probe.ProbeValue :=
  .ok (.single (.terminalFont ""))

/-- The probe closure pushed for `config.cpu` (src/probe.rs lines 401-410). -/
def cpuProbe (env : ProbeEnv) : Except ProbeError (ProbeResultValue Probe.ProbeValue) := do
  let c ← env.cpu_model_name
  pure (.single (.cpu c))

/-- The probe closure pushed for `config.gpu` (src/probe.rs lines 411-424):
one `GPU` value per adapter, as a `Multiple`. -/
def gpuProbe (env : ProbeEnv) : Except ProbeError (ProbeResultValue Probe.ProbeValue) := do
  let gs ← env.gpus
  pure (.multiple (gs.map fun g => .gpu g))

/-- The probe closure pushed for `config.memory` (src/probe.rs lines 425-435). -/
def memoryProbe (env : ProbeEnv) : Except ProbeError (ProbeResultValue Probe.ProbeValue) := do
  let used ← env.memory_used
  let total ← env.memory_total
  pure (.single (.memory used total))

/-- The probe closure pushed for `config.network` (src/probe.rs lines
436-446): a fixed empty-string placeholder. -/
def networkProbe (_env : ProbeEnv) : ProbeResult Probe.ProbeValue :=
  .ok (.single (.network ""))

/-- The probe closure pushed for `config.bluetooth` (src/probe.rs lines
447-457): a fixed empty-string placeholder. -/
def bluetoothProbe (_env : ProbeEnv) : ProbeResult Probe.ProbeValue :=
  .ok (.single (.bluetooth ""))

/-- The probe closure pushed for `config.bios` (src/probe.rs lines
458-464): a fixed empty-string placeholder. -/
def biosProbe (_env : ProbeEnv) : ProbeResult Probe.ProbeValue :=
  .ok (.single (.bios ""))

/-- The probe closure pushed for `config.gpu_driver` (src/probe.rs lines
465-475): a fixed empty-string placeholder. -/
def gpuDriverProbe (_env : ProbeEnv) : ProbeResult Probe.ProbeValue :=
  .ok (.single (.gpuDriver ""))

/-- The probe closure pushed for `config.cpu_usage` (src/probe.rs lines 476-485). -/
def cpuUsageProbe (env : ProbeEnv) : Except ProbeError (ProbeResultValue Probe.ProbeValue) := do
  let c ← env.cpu_usage
  pure (.single (.cpuUsage c))

/-- The probe closure pushed for `config.disk` (src/probe.rs lines 486-497). -/
def diskProbe (env : ProbeEnv) : Except ProbeError (ProbeResultValue Probe.ProbeValue) := do
  let d ← env.disk_space
  pure (.single (.disk d.1 d.2))

/-- The probe closure pushed for `config.battery` (src/probe.rs lines 498-507). -/
def batteryProbe (env : ProbeEnv) : Except ProbeError (ProbeResultValue Probe.ProbeValue) := do
  let b ← env.battery_percentage
  pure (.single (.battery b))

/-- The probe closure pushed for `config.power_adapter` (src/probe.rs
lines 508-521). -/
def powerAdapterProbe (env : ProbeEnv) : Except ProbeError (ProbeResultValue Probe.ProbeValue) := do
  let st ← env.battery_status
  pure (.single (.powerAdapter (match st with
    | .charging => "Charging"
    | .discharging => "Discharging")))

/-- The probe closure pushed for `config.font` (src/probe.rs lines
522-528): a fixed empty-string placeholder. -/
def fontProbe (_env : ProbeEnv) : ProbeResult Probe.ProbeValue :=
  .ok (.single (.font ""))

/-- The probe closure pushed for `config.song` (src/probe.rs lines
529-535): a fixed empty-string placeholder. -/
def songProbe (_env : ProbeEnv) : ProbeResult Probe.ProbeValue :=
  .ok (.single (.song ""))

/-- The probe closure pushed for `config.local_ip` (src/probe.rs lines
536-542): a fixed empty-list placeholder. -/
def localIPProbe (_env : ProbeEnv) : ProbeResult Probe.ProbeValue :=
  .ok (.single (.localIP []))

/-- The probe closure pushed for `config.public_ip` (src/probe.rs lines
543-553): a fixed empty-string placeholder. -/
def publicIPProbe (_env : ProbeEnv) : ProbeResult Probe.ProbeValue :=
  .ok (.single (.publicIP ""))

/-- The probe closure pushed for `config.users` (src/probe.rs lines
554-560): a fixed `0` placeholder. -/
def usersProbe (_env : ProbeEnv) : ProbeResult Probe.ProbeValue :=
  .ok (.single (.users 0))

/-- The probe closure pushed for `config.locale` (src/probe.rs lines
561-567): a fixed empty-string placeholder. -/
def localeProbe (_env : ProbeEnv) : ProbeResult Probe.ProbeValue :=
  .ok (.single (.locale ""))

/-- The probe closure pushed for `config.java` (src/probe.rs lines
568-578): a fixed "N/A" placeholder. -/
def javaProbe (_env : ProbeEnv) : ProbeResult Probe.ProbeValue :=
  .ok (.single (.java "N/A"))

/-- The probe closure pushed for `config.python` (src/probe.rs lines
579-589): a fixed "N/A" placeholder. -/
def pythonProbe (_env : ProbeEnv) : ProbeResult Probe.ProbeValue :=
  .ok (.single (.python "N/A"))

/-- The probe closure pushed for `config.node` (src/probe.rs lines
590-600): a fixed "N/A" placeholder. -/
def nodeProbe (_env : ProbeEnv) : ProbeResult Probe.ProbeValue :=
  .ok (.single (.node "N/A"))

/-- The probe closure pushed for `config.rust` (src/probe.rs lines
601-611): a fixed "N/A" placeholder. -/
def rustProbe (_env : ProbeEnv) : ProbeResult Probe.ProbeValue :=
  .ok (.single (.rust "N/A"))

/-- The struct-shaped `ProbeConfig` consumed by `probe_metrics`: one
optional display label per metric.  Its declaration is not under src/;
the fields and their `Option<String>` types are reconstructed exactly
from the field accesses of `probe_metrics` (src/probe.rs lines 252-611),
listed in access order. -/
structure ProbeConfigOpts where
  os : Option String := none
  model : Option String := none
  kernel : Option String := none
  uptime : Option String := none
  packages : Option String := none
  shell : Option String := none
  editor : Option String := none
  resolution : Option String := none
  de : Option String := none
  wm : Option String := none
  wm_theme : Option String := none
  theme : Option String := none
  icons : Option String := none
  cursor : Option String := none
  terminal : Option String := none
  terminal_font : Option String := none
  cpu : Option String := none
  gpu : Option String := none
  memory : Option String := none
  network : Option String := none
  bluetooth : Option String := none
  bios : Option String := none
  gpu_driver : Option String := none
  cpu_usage : Option String := none
  disk : Option String := none
  battery : Option String := none
  power_adapter : Option String := none
  font : Option String := none
  song : Option String := none
  local_ip : Option String := none
  public_ip : Option String := none
  users : Option String := none
  locale : Option String := none
  java : Option String := none
  python : Option String := none
  node : Option String := none
  rust : Option String := none

/-- `if let Some(label) = &config.field { metrics.push((label, probe)) }`:
the zero-or-one entry a configured field contributes. -/
def optEntry (o : Option String) (p : ProbeEnv → ProbeResult Probe.ProbeValue) :
    List (Entry Probe.ProbeValue) :=
  match o with
  | none => []
  | some l => [(l, p)]

/-- `probe_metrics` (src/probe.rs lines 241-617): the ordered probe list,
one `(label, closure)` entry per configured metric, in the fixed textual
order of the function's `if let` blocks. -/
def probe_metrics (c : ProbeConfigOpts) : List (Entry Probe.ProbeValue) :=
  optEntry c.os osProbe ++
  optEntry c.model modelProbe ++
  optEntry c.kernel kernelProbe ++
  optEntry c.uptime uptimeProbe ++
  optEntry c.packages packagesProbe ++
  optEntry c.shell shellProbe ++
  optEntry c.editor editorProbe ++
  optEntry c.resolution resolutionProbe ++
  optEntry c.de deProbe ++
  optEntry c.wm wmProbe ++
  optEntry c.wm_theme wmThemeProbe ++
  optEntry c.theme themeProbe ++
  optEntry c.icons iconsProbe ++
  optEntry c.cursor cursorProbe ++
  optEntry c.terminal terminalProbe ++
  optEntry c.terminal_font terminalFontProbe ++
  optEntry c.cpu cpuProbe ++
  optEntry c.gpu gpuProbe ++
  optEntry c.memory memoryProbe ++
  optEntry c.network networkProbe ++
  optEntry c.bluetooth bluetoothProbe ++
  optEntry c.bios biosProbe ++
  optEntry c.gpu_driver gpuDriverProbe ++
  optEntry c.cpu_usage cpuUsageProbe ++
  optEntry c.disk diskProbe ++
  optEntry c.battery batteryProbe ++
  optEntry c.power_adapter powerAdapterProbe ++
  optEntry c.font fontProbe ++
  optEntry c.song songProbe ++
  optEntry c.local_ip localIPProbe ++
  optEntry c.public_ip publicIPProbe ++
  optEntry c.users usersProbe ++
  optEntry c.locale localeProbe ++
  optEntry c.java javaProbe ++
  optEntry c.python pythonProbe ++
  optEntry c.node nodeProbe ++
  optEntry c.rust rustProbe

/-- The labels of the enabled fields of a `ProbeConfigOpts`, in the fixed
field order — the "configured order" of the struct-shaped configuration. -/
def configuredLabels (c : ProbeConfigOpts) : List String :=
  List.flatMap
    [c.os, c.model, c.kernel, c.uptime, c.packages, c.shell, c.editor,
     c.resolution, c.de, c.wm, c.wm_theme, c.theme, c.icons, c.cursor,
     c.terminal, c.terminal_font, c.cpu, c.gpu, c.memory, c.network,
     c.bluetooth, c.bios, c.gpu_driver, c.cpu_usage, c.disk, c.battery,
     c.power_adapter, c.font, c.song, c.local_ip, c.public_ip, c.users,
     c.locale, c.java, c.python, c.node, c.rust]
    Option.toList

/-- Evaluating every configured probe exactly once, in list order: the
`(label, outcome)` sequence the executor hands to a display strategy
(each renderer's loop calls `probe()` once per entry). -/
def probeOutcomes {α : Type} (env : ProbeEnv) (entries : List (Entry α)) :
    List (String × ProbeResult α) :=
  entries.map fun e => (e.1, e.2 env)

/-- `ProbeType` (the MetricKind enumeration referenced by
`ProbeConfig::get_funcs` in src/config.rs lines 324-366; one variant per
`ProbeConfig` variant). -/
inductive ProbeType where
  | host | os | distro | model | kernel | uptime | packages | shell
  | editor | resolution | de | wm | wmTheme | theme | icons | cursor
  | terminal | terminalFont | cpu | gpu | memory | network | bluetooth
  | bios | gpuDriver | cpuUsage | disk | battery | powerAdapter | font
  | song | localIP | publicIP | users | locale | java | python | node | rust
deriving DecidableEq, Repr

/-- The `ProbeConfig` enum of src/config.rs (lines 184-227): each variant
carries the user-chosen display label. -/
inductive ProbeConfig where
  | host : String → ProbeConfig
  | os : String → ProbeConfig
  | model : String → ProbeConfig
  | kernel : String → ProbeConfig
  | distro : String → ProbeConfig
  | uptime : String → ProbeConfig
  | packages : String → ProbeConfig
  | shell : String → ProbeConfig
  | editor : String → ProbeConfig
  | resolution : String → ProbeConfig
  | de : String → ProbeConfig
  | wm : String → ProbeConfig
  | wmTheme : String → ProbeConfig
  | theme : String → ProbeConfig
  | icons : String → ProbeConfig
  | cursor : String → ProbeConfig
  | terminal : String → ProbeConfig
  | terminalFont : String → ProbeConfig
  | cpu : String → ProbeConfig
  | gpu : String → ProbeConfig
  | memory : String → ProbeConfig
  | network : String → ProbeConfig
  | bluetooth : String → ProbeConfig
  | bios : String → ProbeConfig
  | gpuDriver : String → ProbeConfig
  | cpuUsage : String → ProbeConfig
  | disk : String → ProbeConfig
  | battery : String → ProbeConfig
  | powerAdapter : String → ProbeConfig
  | font : String → ProbeConfig
  | song : String → ProbeConfig
  | localIP : String → ProbeConfig
  | publicIP : String → ProbeConfig
  | users : String → ProbeConfig
  | locale : String → ProbeConfig
  | java : String → ProbeConfig
  | python : String → ProbeConfig
  | node : String → ProbeConfig
  | rust : String → ProbeConfig
deriving DecidableEq, Repr

/-- The display label carried by a `ProbeConfig` variant. -/
def ProbeConfig.labelOf : ProbeConfig → String
  | .host l => l
  | .os l => l
  | .model l => l
  | .kernel l => l
  | .distro l => l
  | .uptime l => l
  | .packages l => l
  | .shell l => l
  | .editor l => l
  | .resolution l => l
  | .de l => l
  | .wm l => l
  | .wmTheme l => l
  | .theme l => l
  | .icons l => l
  | .cursor l => l
  | .terminal l => l
  | .terminalFont l => l
  | .cpu l => l
  | .gpu l => l
  | .memory l => l
  | .network l => l
  | .bluetooth l => l
  | .bios l => l
  | .gpuDriver l => l
  | .cpuUsage l => l
  | .disk l => l
  | .battery l => l
  | .powerAdapter l => l
  | .font l => l
  | .song l => l
  | .localIP l => l
  | .publicIP l => l
  | .users l => l
  | .locale l => l
  | .java l => l
  | .python l => l
  | .node l => l
  | .rust l => l

/-- The metric kind a `ProbeConfig` variant identifies. -/
def ProbeConfig.kindOf : ProbeConfig → ProbeType
  | .host _ => .host
  | .os _ => .os
  | .model _ => .model
  | .kernel _ => .kernel
  | .distro _ => .distro
  | .uptime _ => .uptime
  | .packages _ => .packages
  | .shell _ => .shell
  | .editor _ => .editor
  | .resolution _ => .resolution
  | .de _ => .de
  | .wm _ => .wm
  | .wmTheme _ => .wmTheme
  | .theme _ => .theme
  | .icons _ => .icons
  | .cursor _ => .cursor
  | .terminal _ => .terminal
  | .terminalFont _ => .terminalFont
  | .cpu _ => .cpu
  | .gpu _ => .gpu
  | .memory _ => .memory
  | .network _ => .network
  | .bluetooth _ => .bluetooth
  | .bios _ => .bios
  | .gpuDriver _ => .gpuDriver
  | .cpuUsage _ => .cpuUsage
  | .disk _ => .disk
  | .battery _ => .battery
  | .powerAdapter _ => .powerAdapter
  | .font _ => .font
  | .song _ => .song
  | .localIP _ => .localIP
  | .publicIP _ => .publicIP
  | .users _ => .users
  | .locale _ => .locale
  | .java _ => .java
  | .python _ => .python
  | .node _ => .node
  | .rust _ => .rust

/-- Value type for the registry-resolved probe functions.  The
`impl From<ProbeType> for ProbeResultFunction` is not under src/, and the
Host/Distro metrics exist only in the renderer iteration of `ProbeValue`:
`base` wraps the probe.rs values produced by the closures that are in
src/, while `host` and `distro` carry the spec's Host (username,
hostname) and Distro (distribution string) payloads. -/
inductive MetricValue where
  | base : Probe.ProbeValue → MetricValue
  | host : String → String → MetricValue
  | distro : String → MetricValue
deriving DecidableEq, Repr

/-- Injects a probe.rs result into the `MetricValue`-typed result. -/
def liftResult : ProbeResult Probe.ProbeValue → ProbeResult MetricValue :=
  Except.map fun rv =>
    match rv with
    | .single v => .single (.base v)
    | .multiple vs => .multiple (vs.map MetricValue.base)

/-- Modelled from the spec: the total registry binding
`resolve(kind: MetricKind) -> ProbeFunction` of spec §4.2, standing in for
the missing `impl From<ProbeType> for ProbeResultFunction` used by
`ProbeConfig::get_funcs`.  For the 37 kinds that `probe_metrics` also
binds, the binding is the corresponding probe closure from src/probe.rs;
Host queries username+hostname and Distro the distribution readout,
following the spec's description of those metrics. -/
def resolve : ProbeType → ProbeEnv → Except ProbeError (ProbeResultValue MetricValue)
  | .host => fun env => do
      let u ← env.username
      let h ← env.hostname
      pure (.single (.host u h))
  | .distro => fun env => do
      let d ← env.distribution
      pure (.single (.distro d))
  | .os => fun env => liftResult (osProbe env)
  | .model => fun env => liftResult (modelProbe env)
  | .kernel => fun env => liftResult (kernelProbe env)
  | .uptime => fun env => liftResult (uptimeProbe env)
  | .packages => fun env => liftResult (packagesProbe env)
  | .shell => fun env => liftResult (shellProbe env)
  | .editor => fun env => liftResult (editorProbe env)
  | .resolution => fun env => liftResult (resolutionProbe env)
  | .de => fun env => liftResult (deProbe env)
  | .wm => fun env => liftResult (wmProbe env)
  | .wmTheme => fun env => liftResult (wmThemeProbe env)
  | .theme => fun env => liftResult (themeProbe env)
  | .icons => fun env => liftResult (iconsProbe env)
  | .cursor => fun env => liftResult (cursorProbe env)
  | .terminal => fun env => liftResult (terminalProbe env)
  | .terminalFont => fun env => liftResult (terminalFontProbe env)
  | .cpu => fun env => liftResult (cpuProbe env)
  | .gpu => fun env => liftResult (gpuProbe env)
  | .memory => fun env => liftResult (memoryProbe env)
  | .network => fun env => liftResult (networkProbe env)
  | .bluetooth => fun env => liftResult (bluetoothProbe env)
  | .bios => fun env => liftResult (biosProbe env)
  | .gpuDriver => fun env => liftResult (gpuDriverProbe env)
  | .cpuUsage => fun env => liftResult (cpuUsageProbe env)
  | .disk => fun env => liftResult (diskProbe env)
  | .battery => fun env => liftResult (batteryProbe env)
  | .powerAdapter => fun env => liftResult (powerAdapterProbe env)
  | .font => fun env => liftResult (fontProbe env)
  | .song => fun env => liftResult (songProbe env)
  | .localIP => fun env => liftResult (localIPProbe env)
  | .publicIP => fun env => liftResult (publicIPProbe env)
  | .users => fun env => liftResult (usersProbe env)
  | .locale => fun env => liftResult (localeProbe env)
  | .java => fun env => liftResult (javaProbe env)
  | .python => fun env => liftResult (pythonProbe env)
  | .node => fun env => liftResult (nodeProbe env)
  | .rust => fun env => liftResult (rustProbe env)

/-- `ProbeConfig::get_funcs` (src/config.rs lines 324-366): every variant
yields its label paired with the registry binding of its kind
(`ProbeType::X.into()` in the source). -/
def ProbeConfig.get_funcs (pc : ProbeConfig) :
    String × (ProbeEnv → Except ProbeError (ProbeResultValue MetricValue)) :=
  match pc with
  | .host l => (l, resolve .host)
  | .os l => (l, resolve .os)
  | .distro l => (l, resolve .distro)
  | .model l => (l, resolve .model)
  | .kernel l => (l, resolve .kernel)
  | .uptime l => (l, resolve .uptime)
  | .packages l => (l, resolve .packages)
  | .shell l => (l, resolve .shell)
  | .editor l => (l, resolve .editor)
  | .resolution l => (l, resolve .resolution)
  | .de l => (l, resolve .de)
  | .wm l => (l, resolve .wm)
  | .wmTheme l => (l, resolve .wmTheme)
  | .theme l => (l, resolve .theme)
  | .icons l => (l, resolve .icons)
  | .cursor l => (l, resolve .cursor)
  | .terminal l => (l, resolve .terminal)
  | .terminalFont l => (l, resolve .terminalFont)
  | .cpu l => (l, resolve .cpu)
  | .gpu l => (l, resolve .gpu)
  | .memory l => (l, resolve .memory)
  | .network l => (l, resolve .network)
  | .bluetooth l => (l, resolve .bluetooth)
  | .bios l => (l, resolve .bios)
  | .gpuDriver l => (l, resolve .gpuDriver)
  | .cpuUsage l => (l, resolve .cpuUsage)
  | .disk l => (l, resolve .disk)
  | .battery l => (l, resolve .battery)
  | .powerAdapter l => (l, resolve .powerAdapter)
  | .font l => (l, resolve .font)
  | .song l => (l, resolve .song)
  | .localIP l => (l, resolve .localIP)
  | .publicIP l => (l, resolve .publicIP)
  | .users l => (l, resolve .users)
  | .locale l => (l, resolve .locale)
  | .java l => (l, resolve .java)
  | .python l => (l, resolve .python)
  | .node l => (l, resolve .node)
  | .rust l => (l, resolve .rust)

/-- A concrete platform oracle on which every readout succeeds (used to
instantiate theorems at specific inputs). -/
def okEnv : ProbeEnv where
  distribution := .ok "Ubuntu 22.04.4 LTS x86_64"
  vendor := .ok "Dell Inc."
  product := .ok "XPS 15 9510"
  pretty_kernel := .ok "6.8.4-cachyos"
  uptime := .ok 90061
  count_pkgs := [("dpkg", 120), ("flatpak", 5)]
  shell := .ok "zsh 5.9"
  resolution := .ok "1920x1080"
  desktop_environment := .ok "GNOME"
  window_manager := .ok "Mutter"
  terminal := .ok "kitty"
  cpu_model_name := .ok "Intel Core i7-11800H"
  gpus := .ok ["NVIDIA GeForce RTX 4090"]
  memory_used := .ok 46863
  memory_total := .ok 64290
  cpu_usage := .ok 12
  disk_space := .ok (500000000000, 1000000000000)
  battery_percentage := .ok 86
  battery_status := .ok .charging
  username := .ok "jdoe"
  hostname := .ok "workstation"

/-- `okEnv` with a failing username readout: the direct readout the
neofetch renderer performs for its title line fails. -/
def envNoUser : ProbeEnv :=
  { okEnv with username := .error (.other "no username") }


/-! Helper lemmas: evaluation bridges from the exact-rational model of
the float arithmetic to natural-number arithmetic. -/

/-- `roundQ` of a quotient of naturals is plain integer arithmetic. -/
theorem roundQ_div (u d : Nat) (hd : d ≠ 0) :
    roundQ ((u : ℚ) / (d : ℚ)) = ((2 * u + d) / (2 * d) : Nat) := by
  have hdq : ((d : ℚ)) ≠ 0 := Nat.cast_ne_zero.mpr hd
  have h2 : (2 : ℚ) ≠ 0 := by norm_num
  have key : (u : ℚ) / (d : ℚ) + 1 / 2 = ((2 * u + d : Nat) : ℚ) / ((2 * d : Nat) : ℚ) := by
    rw [div_add_div _ _ hdq h2,
      div_eq_div_iff (mul_ne_zero hdq h2)
        (Nat.cast_ne_zero.mpr (Nat.mul_ne_zero two_ne_zero hd))]
    push_cast
    ring
  rw [roundQ, key, Rat.floor_natCast_div_natCast]
  exact (Int.ofNat_div _ _).symm

/-- `roundQ` of a natural number is that number. -/
theorem roundQ_natCast (u : Nat) : roundQ (u : ℚ) = u := by
  have h := roundQ_div u 1 one_ne_zero
  simp only [Nat.cast_one, div_one, mul_one] at h
  rw [h]
  omega

/-- `fmod` of a quotient of naturals reduces to natural remainder. -/
theorem fmod_div (u a b : Nat) (ha : a ≠ 0) (hb : b ≠ 0) :
    fmod ((u : ℚ) / (a : ℚ)) (b : ℚ) = ((u % (a * b) : Nat) : ℚ) / (a : ℚ) := by
  have haq : ((a : ℚ)) ≠ 0 := Nat.cast_ne_zero.mpr ha
  have hbq : ((b : ℚ)) ≠ 0 := Nat.cast_ne_zero.mpr hb
  have hq : (u : ℚ) / (a : ℚ) / (b : ℚ) = ((u : Nat) : ℚ) / ((a * b : Nat) : ℚ) := by
    push_cast
    rw [div_div]
  have hfloor : ⌊(u : ℚ) / (a : ℚ) / (b : ℚ)⌋ = ((u / (a * b) : Nat) : ℤ) := by
    rw [hq, Rat.floor_natCast_div_natCast]
    exact (Int.ofNat_div _ _).symm
  rw [fmod, hfloor]
  have hsplit : ((a * b : Nat) : ℚ) * ((u / (a * b) : Nat) : ℚ) + ((u % (a * b) : Nat) : ℚ)
      = (u : ℚ) :=
    mod_cast congrArg (Nat.cast : Nat → ℚ) (Nat.div_add_mod u (a * b))
  push_cast at hsplit
  simp only [Int.cast_natCast]
  field_simp
  linear_combination -hsplit

/-- `fmod` of a natural by a natural is the natural remainder. -/
theorem fmod_natCast (u b : Nat) (hb : b ≠ 0) :
    fmod ((u : ℚ)) (b : ℚ) = ((u % b : Nat) : ℚ) := by
  have h := fmod_div u 1 b one_ne_zero hb
  simpa using h

/-- Printing an integer obtained from a natural equals printing the natural. -/
theorem toString_intCast (n : Nat) : toString ((n : ℤ)) = toString n := rfl

theorem uptimeNeofetchString_eq (u : Nat) : uptimeNeofetchString u = uptimeNeofetchNat u := by
  unfold uptimeNeofetchString uptimeNeofetchNat
  have e1 : ((60 * 60 * 24 : ℚ)) = ((86400 : Nat) : ℚ) := by norm_num
  have e2 : ((60 * 60 : ℚ)) = ((3600 : Nat) : ℚ) := by norm_num
  have e3 : ((60 : ℚ)) = ((60 : Nat) : ℚ) := by norm_num
  have e4 : ((24 : ℚ)) = ((24 : Nat) : ℚ) := by norm_num
  rw [e1, e2, e3, e4]
  rw [roundQ_div u 86400 (by norm_num)]
  rw [fmod_div u 3600 24 (by norm_num) (by norm_num)]
  rw [fmod_div u 60 60 (by norm_num) (by norm_num)]
  rw [fmod_natCast u 60 (by norm_num)]
  rw [roundQ_div (u % (3600 * 24)) 3600 (by norm_num)]
  rw [roundQ_div (u % (60 * 60)) 60 (by norm_num)]
  rw [roundQ_natCast (u % 60)]
  simp only [toString_intCast, gt_iff_lt, Int.natCast_pos]



/-- Mapping the label out of a configured field's zero-or-one entry. -/
theorem optEntry_map_fst (o : Option String) (p : ProbeEnv → ProbeResult Probe.ProbeValue) :
    (optEntry o p).map Prod.fst = o.toList := by
  cases o <;> rfl

/-- `roundQ` of a percentage `u/t*100` of naturals as integer arithmetic. -/
theorem roundQ_div_mul100 (u t : Nat) (ht : t ≠ 0) :
    roundQ ((u : ℚ) / (t : ℚ) * 100) = ((2 * (100 * u) + t) / (2 * t) : Nat) := by
  have h : (u : ℚ) / (t : ℚ) * 100 = ((100 * u : Nat) : ℚ) / ((t : Nat) : ℚ) := by
    push_cast
    ring
  rw [h, roundQ_div (100 * u) t ht]

/-- Every configured label is no longer than the computed column base. -/
theorem label_le_maxTitleLen {α : Type} {t : String} {p : ProbeEnv → ProbeResult α} :
    ∀ {entries : List (Entry α)}, (t, p) ∈ entries → t.length ≤ maxTitleLen entries := by
  intro entries h
  induction entries with
  | nil => cases h
  | cons e es ih =>
    rcases List.mem_cons.mp h with he | hm
    · rw [← he]
      exact Nat.le_max_left _ _
    · exact Nat.le_trans (ih hm) (Nat.le_max_right _ _)

/-- Padding a label no longer than the column width yields exactly that
width. -/
theorem padRight_length (t : String) (w : Nat) (h : t.length ≤ w) :
    (padRight t w).length = w := by
  simp [padRight]
  omega

/-- A failing probe contributes no neofetch line. -/
theorem Neofetch.neofetchEntryLines_error {env : ProbeEnv} {w : Nat} {t : String}
    {p : ProbeEnv → ProbeResult Neofetch.ProbeValue} {err : ProbeError}
    (h : p env = .error err) : Neofetch.entryLines env w (t, p) = [] := by
  simp [Neofetch.entryLines, h]

/-- A failing probe contributes no macchina line. -/
theorem Macchina.macchinaEntryLines_error {env : ProbeEnv} {w : Nat} {t : String}
    {p : ProbeEnv → ProbeResult Macchina.ProbeValue} {err : ProbeError}
    (h : p env = .error err) : Macchina.entryLines env w (t, p) = [] := by
  simp [Macchina.entryLines, h]

/-- A failing probe contributes no line in the older macchina renderer. -/
theorem MacchinaOld.macchinaOldEntryLines_error {env : ProbeEnv} {w : Nat} {t : String}
    {p : ProbeEnv → ProbeResult Probe.ProbeValue} {err : ProbeError}
    (h : p env = .error err) : MacchinaOld.entryLines env w (t, p) = [] := by
  simp [MacchinaOld.entryLines, h]


/-- C7: registry totality — every `ProbeConfig` variant resolves through
`get_funcs` to its label paired with the registry binding of its metric
kind (no variant lacks a binding), and the Editor binding immediately
returns `Unimplemented` when invoked. -/
theorem C7_registry_totality :
    (∀ pc : ProbeConfig, pc.get_funcs = (pc.labelOf, resolve pc.kindOf)) ∧
    (∀ env : ProbeEnv, resolve ProbeType.editor env = .error ProbeError.unimplemented) := by
  constructor
  · intro pc
    cases pc <;> rfl
  · intro env
    rfl

/-- C9: formatting is a pure, deterministic, total function of the value:
formatting the same value twice yields identical text in all three
formatters (they are plain functions of the value, with no I/O and no
failure path), and not-yet-implemented placeholder values render as the
empty string. -/
theorem C9_formatting_pure :
    (∀ v : Probe.ProbeValue, v.to_string = v.to_string) ∧
    (∀ v : Neofetch.ProbeValue,
      Neofetch.probe_config_to_string v = Neofetch.probe_config_to_string v) ∧
    (∀ v : Macchina.ProbeValue,
      Macchina.probe_config_to_string v = Macchina.probe_config_to_string v) ∧
    Probe.ProbeValue.to_string (.wmTheme "") = "" ∧
    Neofetch.probe_config_to_string (.theme "") = "" ∧
    Macchina.probe_config_to_string (.network "") = "" :=
  ⟨fun _ => rfl, fun _ => rfl, fun _ => rfl, rfl, rfl, rfl⟩

/-- C10: the not-yet-implemented probes for Theme, Icons, Cursor, Network,
Bluetooth, BIOS, Locale, Java, Python, Node and Rust return `Ok` with a
fixed placeholder value ("" or "N/A") for every environment; only the
Editor probe unconditionally returns `Err(Unimplemented)`; hence under the
skip-on-error display loop each of those entries still renders exactly one
line (with a blank or "N/A" value) while an Editor entry renders none. -/
theorem C10_placeholder_probes :
    ∀ env : ProbeEnv,
      themeProbe env = .ok (.single (.theme "")) ∧
      iconsProbe env = .ok (.single (.icons "")) ∧
      cursorProbe env = .ok (.single (.cursor "")) ∧
      networkProbe env = .ok (.single (.network "")) ∧
      bluetoothProbe env = .ok (.single (.bluetooth "")) ∧
      biosProbe env = .ok (.single (.bios "")) ∧
      localeProbe env = .ok (.single (.locale "")) ∧
      javaProbe env = .ok (.single (.java "N/A")) ∧
      pythonProbe env = .ok (.single (.python "N/A")) ∧
      nodeProbe env = .ok (.single (.node "N/A")) ∧
      rustProbe env = .ok (.single (.rust "N/A")) ∧
      editorProbe env = .error .unimplemented ∧
      (∀ w l, MacchinaOld.entryLines env w (l, themeProbe) =
          [padRight l w ++ "-" ++ "  " ++ ""] ∧
        MacchinaOld.entryLines env w (l, javaProbe) =
          [padRight l w ++ "-" ++ "  " ++ "N/A"] ∧
        MacchinaOld.entryLines env w (l, editorProbe) = []) :=
  fun _ => ⟨rfl, rfl, rfl, rfl, rfl, rfl, rfl, rfl, rfl, rfl, rfl, rfl,
    fun _ _ => ⟨rfl, rfl, rfl⟩⟩

/-- C5: a Multiple outcome renders one line per element under the same
label, never merged: generically for the entry loops of both display
strategies, and concretely a Packages probe reporting dpkg=120 and
flatpak=5 yields exactly two lines sharing the "Packages" label with
values "120 (dpkg)" and "5 (flatpak)". -/
theorem C5_multiple_per_line :
    (∀ (env : ProbeEnv) (w : Nat) (l : String) (vs : List Probe.ProbeValue),
      MacchinaOld.entryLines env w (l, fun _ => .ok (.multiple vs)) =
        vs.map fun v => padRight l w ++ "-" ++ "  " ++ v.to_string) ∧
    (∀ (env : ProbeEnv) (w : Nat) (l : String) (vs : List Neofetch.ProbeValue),
      Neofetch.entryLines env w (l, fun _ => .ok (.multiple vs)) =
        vs.map fun v => padRight l w ++ ":" ++ " " ++ Neofetch.probe_config_to_string v) ∧
    (∀ env : ProbeEnv,
      MacchinaOld.entryLines { env with count_pkgs := [("dpkg", 120), ("flatpak", 5)] } 8
          ("Packages", packagesProbe) =
        [padRight "Packages" 8 ++ "-" ++ "  " ++ "120 (dpkg)",
         padRight "Packages" 8 ++ "-" ++ "  " ++ "5 (flatpak)"]) :=
  ⟨fun _ _ _ _ => rfl, fun _ _ _ _ => rfl, fun _ => rfl⟩

/-- C6 counterexample: Battery is not rendered with a "%" suffix — the
neofetch formatter prints the bare number for Battery(86), and so does the
macchina formatter below 100. -/
theorem C6_battery_no_percent_cex :
    Neofetch.probe_config_to_string (.battery 86) = "86" ∧
    Neofetch.probe_config_to_string (.battery 86) ≠ "86%" ∧
    Macchina.probe_config_to_string (.battery 86) = "86" := by
  refine ⟨rfl, ?_, rfl⟩
  decide

/-- C6 amended: CPU usage renders as the integer followed by "%" in both
renderer formatters; Battery renders without "%": as the bare integer in
the neofetch formatter, and in the macchina formatter as "Full" for
values at least 100 and the bare integer below 100. -/
theorem C6_percent_scalars :
    (∀ n : Nat, Neofetch.probe_config_to_string (.cpuUsage n) = toString n ++ "%") ∧
    (∀ n : Nat, Macchina.probe_config_to_string (.cpuUsage n) = toString n ++ "%") ∧
    (∀ b : Nat, Neofetch.probe_config_to_string (.battery b) = toString b) ∧
    (∀ b : Nat, 100 ≤ b → Macchina.probe_config_to_string (.battery b) = "Full") ∧
    (∀ b : Nat, b < 100 → Macchina.probe_config_to_string (.battery b) = toString b) := by
  refine ⟨fun _ => rfl, fun _ => rfl, fun _ => rfl, ?_, ?_⟩
  · intro b hb
    simp only [Macchina.probe_config_to_string]
    rw [if_pos hb]
  · intro b hb
    simp only [Macchina.probe_config_to_string]
    rw [if_neg (by omega)]

/-- C6 witness: the amended battery clauses evaluated at 100 and 42. -/
theorem C6_percent_scalars_witness :
    Macchina.probe_config_to_string (.battery 100) = "Full" ∧
    Macchina.probe_config_to_string (.battery 42) = "42" :=
  ⟨C6_percent_scalars.2.2.2.1 100 (by norm_num),
   C6_percent_scalars.2.2.2.2 42 (by norm_num)⟩


/-- C3 counterexample: the uptime buckets are computed with `.round()`,
not by truncation — at u = 59 the minutes bucket is round(59/60) = 1, so
the formatter takes the minutes branch and renders "1 mins" instead of
falling through to the seconds branch. -/
theorem C3_uptime_trunc_cex :
    Probe.ProbeValue.to_string (.uptime 59) = "1 mins" ∧
    Probe.ProbeValue.to_string (.uptime 59) ≠ "59 seconds" ∧
    Neofetch.probe_config_to_string (.uptime 59) = "1 mins" := by
  have h : uptimeNeofetchString 59 = "1 mins" := by
    rw [uptimeNeofetchString_eq]
    decide
  refine ⟨h, ?_, h⟩
  intro hc
  have hbad : ("1 mins" : String) = "59 seconds" := by
    calc ("1 mins" : String) = Probe.ProbeValue.to_string (.uptime 59) := h.symm
    _ = "59 seconds" := hc
  exact absurd hbad (by decide)

/-- C3 amended: uptime formatting picks the first branch among
days/hours/minutes/seconds whose rounded (not truncated) bucket is
positive — u = 0 renders "0 seconds", u = 59 has minutes bucket 1 and
renders "1 mins", u = 3661 renders "1 hours, 1 mins", u = 90061 renders
"1 days, 1 hours, 1 mins", and every u ≤ 29 rounds all larger buckets to
zero and renders the seconds branch. -/
theorem C3_uptime_rounded_buckets :
    Probe.ProbeValue.to_string (.uptime 0) = "0 seconds" ∧
    Probe.ProbeValue.to_string (.uptime 59) = "1 mins" ∧
    Probe.ProbeValue.to_string (.uptime 3661) = "1 hours, 1 mins" ∧
    Probe.ProbeValue.to_string (.uptime 90061) = "1 days, 1 hours, 1 mins" ∧
    Neofetch.probe_config_to_string (.uptime 0) = "0 seconds" ∧
    Neofetch.probe_config_to_string (.uptime 3661) = "1 hours, 1 mins" ∧
    (∀ u : Nat, u ≤ 29 →
      Probe.ProbeValue.to_string (.uptime u) = toString u ++ " seconds") := by
  have e0 : uptimeNeofetchString 0 = "0 seconds" := by
    rw [uptimeNeofetchString_eq]; decide
  have e59 : uptimeNeofetchString 59 = "1 mins" := by
    rw [uptimeNeofetchString_eq]; decide
  have e3661 : uptimeNeofetchString 3661 = "1 hours, 1 mins" := by
    rw [uptimeNeofetchString_eq]; decide
  have e90061 : uptimeNeofetchString 90061 = "1 days, 1 hours, 1 mins" := by
    rw [uptimeNeofetchString_eq]; decide
  refine ⟨e0, e59, e3661, e90061, e0, e3661, ?_⟩
  intro u hu
  have e : Probe.ProbeValue.to_string (.uptime u) = uptimeNeofetchNat u :=
    uptimeNeofetchString_eq u
  rw [e]
  unfold uptimeNeofetchNat
  have h1 : (2 * u + 86400) / (2 * 86400) = 0 := by omega
  have h2 : (2 * (u % (3600 * 24)) + 3600) / (2 * 3600) = 0 := by omega
  have h3 : (2 * (u % (60 * 60)) + 60) / (2 * 60) = 0 := by omega
  have h4 : u % 60 = u := by omega
  simp [h1, h2, h3, h4]

/-- C3 witness: the seconds clause of the amended statement at u = 12. -/
theorem C3_uptime_rounded_buckets_witness :
    Probe.ProbeValue.to_string (.uptime 12) = "12 seconds" :=
  C3_uptime_rounded_buckets.2.2.2.2.2.2 12 (by norm_num)

/-- C4: Memory values already stored in the display unit pass through
exactly in `ProbeValue::to_string` ("46863 MiB / 64290 MiB"), and a
byte-valued Disk(500e9, 1e12) converts to GiB with rounding plus the
derived rounded percentage, "466 G / 931 G (50%)", in both renderer
formatters. -/
theorem C4_byte_quantities :
    Probe.ProbeValue.to_string (.memory 46863 64290) = "46863 MiB / 64290 MiB" ∧
    Neofetch.probe_config_to_string (.disk 500000000000 1000000000000) =
      "466 G / 931 G (50%)" ∧
    Macchina.probe_config_to_string (.disk 500000000000 1000000000000) =
      "466 G / 931 G (50%)" := by
  refine ⟨rfl, ?_, ?_⟩
  all_goals
    simp only [Neofetch.probe_config_to_string, Macchina.probe_config_to_string]
    rw [(by norm_num : ((1024 * 1024 * 1024 : ℚ)) = ((1073741824 : Nat) : ℚ))]
    rw [roundQ_div 500000000000 1073741824 (by norm_num),
      roundQ_div 1000000000000 1073741824 (by norm_num),
      roundQ_div_mul100 500000000000 1000000000000 (by norm_num)]
    simp only [toString_intCast]
    decide


/-- C2: pipeline order preservation and exactly-once probing — the
`probe_metrics` list carries exactly the configured labels in the fixed
configuration order; evaluating a probe list produces at position i the
i-th label paired with the i-th probe evaluated once; and the neofetch
entry loop's output is exactly the per-entry rendering of those
once-computed `(label, outcome)` pairs in order. -/
theorem C2_pipeline_order :
    (∀ c : ProbeConfigOpts, (probe_metrics c).map Prod.fst = configuredLabels c) ∧
    (∀ (α : Type) (env : ProbeEnv) (entries : List (Entry α)),
      (probeOutcomes env entries).map Prod.fst = entries.map Prod.fst) ∧
    (∀ (α : Type) (env : ProbeEnv) (entries : List (Entry α)) (i : Nat),
      (probeOutcomes env entries)[i]? = (entries[i]?).map fun e => (e.1, e.2 env)) ∧
    (∀ (env : ProbeEnv) (w : Nat) (entries : List (Entry Neofetch.ProbeValue)),
      entries.flatMap (Neofetch.entryLines env w) =
        (probeOutcomes env entries).flatMap
          (fun lo => Neofetch.entryLines env w (lo.1, fun _ => lo.2))) := by
  refine ⟨?_, ?_, ?_, ?_⟩
  · intro c
    simp [probe_metrics, configuredLabels, optEntry_map_fst, List.append_assoc]
  · intro α env entries
    simp [probeOutcomes]
  · intro α env entries i
    simp [probeOutcomes]
  · intro env w entries
    simp only [probeOutcomes, List.flatMap_map]
    rfl

/-- C1 counterexample: with the title enabled, a failing username readout
— a probe failure, not a standard-output write error — aborts the whole
neofetch draw with `RendererError::ReadoutError`, even though the only
configured entry's probe succeeds; so probe failures are not the only
fatal path besides stdout I/O errors. -/
theorem C1_title_probe_abort_cex :
    Neofetch.draw ⟨true, true, true⟩ envNoUser
        [("CPU", fun _ => .ok (.single (.cpu "Intel Core i7-11800H")))] =
      .error (.readoutError (.other "no username")) := rfl

/-- C1 amended: a configured entry's probe failure is isolated — the
failing entry contributes no line while every sibling entry's lines are
unchanged, in both renderer loops; the macchina draw never returns a
fatal error; and the neofetch draw always succeeds whenever the title is
disabled.  (With the title enabled the title's own username/hostname
readout failure is additionally propagated as a fatal `ReadoutError`, as
the counterexample shows.) -/
theorem C1_probe_failure_isolated :
    (∀ (env : ProbeEnv) (w : Nat) (err : ProbeError) (t : String)
        (p : ProbeEnv → ProbeResult Neofetch.ProbeValue)
        (es1 es2 : List (Entry Neofetch.ProbeValue)), p env = .error err →
      (es1 ++ (t, p) :: es2).flatMap (Neofetch.entryLines env w) =
        es1.flatMap (Neofetch.entryLines env w) ++
          es2.flatMap (Neofetch.entryLines env w)) ∧
    (∀ (env : ProbeEnv) (w : Nat) (err : ProbeError) (t : String)
        (p : ProbeEnv → ProbeResult Macchina.ProbeValue)
        (es1 es2 : List (Entry Macchina.ProbeValue)), p env = .error err →
      (es1 ++ (t, p) :: es2).flatMap (Macchina.entryLines env w) =
        es1.flatMap (Macchina.entryLines env w) ++
          es2.flatMap (Macchina.entryLines env w)) ∧
    (∀ (art : List String) (filler : String) (env : ProbeEnv)
        (entries : List (Entry Macchina.ProbeValue)),
      ∃ ls, Macchina.draw art filler env entries = .ok ls) ∧
    (∀ (cfg : NeofetchRendererConfig) (env : ProbeEnv)
        (entries : List (Entry Neofetch.ProbeValue)), cfg.title = false →
      ∃ ls, Neofetch.draw cfg env entries = .ok ls) := by
  refine ⟨?_, ?_, ?_, ?_⟩
  · intro env w err t p es1 es2 hp
    rw [List.flatMap_append, List.flatMap_cons, Neofetch.neofetchEntryLines_error hp,
      List.nil_append]
  · intro env w err t p es1 es2 hp
    rw [List.flatMap_append, List.flatMap_cons, Macchina.macchinaEntryLines_error hp,
      List.nil_append]
  · intro art filler env entries
    exact ⟨_, rfl⟩
  · intro cfg env entries h
    obtain ⟨tl, ul, col⟩ := cfg
    have h' : tl = false := h
    subst h'
    exact ⟨_, rfl⟩

/-- C1 witness: isolation at a concrete failing GPU probe between two
successful siblings, and success of the no-title draw at a concrete
configuration. -/
theorem C1_probe_failure_isolated_witness :
    ([(("CPU", fun _ => .ok (.single (.cpu "i7"))) : Entry Neofetch.ProbeValue)] ++
        (("GPU", fun _ => .error (.other "driver not found")) : Entry Neofetch.ProbeValue) ::
          [(("Shell", fun _ => .ok (.single (.shell "zsh"))) : Entry Neofetch.ProbeValue)]).flatMap
        (Neofetch.entryLines okEnv 5) =
      [(("CPU", fun _ => .ok (.single (.cpu "i7"))) : Entry Neofetch.ProbeValue)].flatMap
        (Neofetch.entryLines okEnv 5) ++
      [(("Shell", fun _ => .ok (.single (.shell "zsh"))) : Entry Neofetch.ProbeValue)].flatMap
        (Neofetch.entryLines okEnv 5) ∧
    ∃ ls, Neofetch.draw ⟨false, true, true⟩ okEnv
        [(("CPU", fun _ => .ok (.single (.cpu "i7"))) : Entry Neofetch.ProbeValue)] = .ok ls :=
  ⟨C1_probe_failure_isolated.1 okEnv 5 (.other "driver not found") "GPU"
      ((fun _ => .error (.other "driver not found")) :
        ProbeEnv → ProbeResult Neofetch.ProbeValue)
      [(("CPU", fun _ => .ok (.single (.cpu "i7"))) : Entry Neofetch.ProbeValue)]
      [(("Shell", fun _ => .ok (.single (.shell "zsh"))) : Entry Neofetch.ProbeValue)] rfl,
   C1_probe_failure_isolated.2.2.2 ⟨false, true, true⟩ okEnv
      [(("CPU", fun _ => .ok (.single (.cpu "i7"))) : Entry Neofetch.ProbeValue)] rfl⟩

/-- C8 counterexample: the macchina column width is not "maximum label
length plus a margin": because a floor of 12 applies, no single margin m
fits both a 2-character label set (width 12) and a 12-character label set
(width 14). -/
theorem C8_width_margin_cex :
    ¬ ∃ m : Nat,
      Macchina.titleWidth
          [(("OS", fun _ => .error .unimplemented) : Entry Macchina.ProbeValue)] =
        maxTitleLen
          [(("OS", fun _ => .error .unimplemented) : Entry Macchina.ProbeValue)] + m ∧
      Macchina.titleWidth
          [(("OSOSOSOSOSOS", fun _ => .error .unimplemented) : Entry Macchina.ProbeValue)] =
        maxTitleLen
          [(("OSOSOSOSOSOS", fun _ => .error .unimplemented) : Entry Macchina.ProbeValue)] + m := by
  rintro ⟨m, h1, h2⟩
  have e1 : Macchina.titleWidth
      [(("OS", fun _ => .error .unimplemented) : Entry Macchina.ProbeValue)] = 12 := by
    decide
  have e2 : maxTitleLen
      [(("OS", fun _ => .error .unimplemented) : Entry Macchina.ProbeValue)] = 2 := by
    decide
  have e3 : Macchina.titleWidth
      [(("OSOSOSOSOSOS", fun _ => .error .unimplemented) : Entry Macchina.ProbeValue)] = 14 := by
    decide
  have e4 : maxTitleLen
      [(("OSOSOSOSOSOS", fun _ => .error .unimplemented) : Entry Macchina.ProbeValue)] = 12 := by
    decide
  rw [e1, e2] at h1
  rw [e3, e4] at h2
  omega

/-- C8 amended: neofetch uses exactly the maximum label length as the
column width (no margin) and macchina uses max(maximum label length + 2,
12); both pad every configured label to the full computed width — in the
neofetch style the label is padded to the width and then suffixed with
":" — so all label columns align. -/
theorem C8_column_width :
    (∀ (entries : List (Entry Neofetch.ProbeValue)) (t : String)
        (p : ProbeEnv → ProbeResult Neofetch.ProbeValue), (t, p) ∈ entries →
      (padRight t (maxTitleLen entries)).length = maxTitleLen entries) ∧
    (∀ (entries : List (Entry Macchina.ProbeValue)) (t : String)
        (p : ProbeEnv → ProbeResult Macchina.ProbeValue), (t, p) ∈ entries →
      (padRight t (Macchina.titleWidth entries)).length = Macchina.titleWidth entries) ∧
    (∀ entries : List (Entry Macchina.ProbeValue),
      maxTitleLen entries + 2 ≤ Macchina.titleWidth entries ∧
        12 ≤ Macchina.titleWidth entries) ∧
    (∀ (env : ProbeEnv) (w : Nat) (e : Entry Neofetch.ProbeValue) (line : String),
      line ∈ Neofetch.entryLines env w e →
      ∃ v, line = padRight e.1 w ++ ":" ++ " " ++ v) := by
  refine ⟨?_, ?_, ?_, ?_⟩
  · intro entries t p h
    exact padRight_length t _ (label_le_maxTitleLen h)
  · intro entries t p h
    refine padRight_length t _ ?_
    calc t.length ≤ maxTitleLen entries := label_le_maxTitleLen h
    _ ≤ maxTitleLen entries + 2 := Nat.le_add_right _ _
    _ ≤ Macchina.titleWidth entries := Nat.le_max_left _ _
  · intro entries
    exact ⟨Nat.le_max_left _ _, Nat.le_max_right _ _⟩
  · intro env w e line h
    simp only [Neofetch.entryLines] at h
    cases hev : e.2 env with
    | error err =>
      rw [hev] at h
      exact absurd h (List.not_mem_nil _)
    | ok rv =>
      rw [hev] at h
      cases rv with
      | single v =>
        simp only [List.mem_singleton] at h
        exact ⟨Neofetch.probe_config_to_string v, h⟩
      | multiple vs =>
        rcases List.mem_map.mp h with ⟨v, _, rfl⟩
        exact ⟨Neofetch.probe_config_to_string v, rfl⟩

/-- C8 witness: the alignment clauses at concrete one-entry lists and the
line-shape clause at a concrete successful CPU entry. -/
theorem C8_column_width_witness :
    (padRight "OS"
        (maxTitleLen
          [(("OS", fun _ => .error .unimplemented) : Entry Neofetch.ProbeValue)])).length =
      maxTitleLen [(("OS", fun _ => .error .unimplemented) : Entry Neofetch.ProbeValue)] ∧
    (padRight "OS"
        (Macchina.titleWidth
          [(("OS", fun _ => .error .unimplemented) : Entry Macchina.ProbeValue)])).length =
      Macchina.titleWidth
        [(("OS", fun _ => .error .unimplemented) : Entry Macchina.ProbeValue)] ∧
    ∃ v, padRight "CPU" 5 ++ ":" ++ " " ++ "Intel" = padRight "CPU" 5 ++ ":" ++ " " ++ v :=
  ⟨C8_column_width.1 _ "OS" _ (List.Mem.head _),
   C8_column_width.2.1 _ "OS" _ (List.Mem.head _),
   C8_column_width.2.2.2 okEnv 5 ("CPU", fun _ => .ok (.single (.cpu "Intel"))) _
     (List.Mem.head _)⟩

end FFetch
